import Mathlib

/-!
Verification model of the shell filesystem-folder component (CFSFolder and its
helpers).  Wide strings are lists of UTF-16 code units; machine words are `Nat`
values reduced modulo the word size where the code relies on wrap-around.
External collaborators (registry, filesystem probes, delegated comparators and
child namespaces) are passed in as explicit oracle functions, so every theorem
quantifies over their behaviour.
-/

namespace Shell

/-! ## Windows constants used by the source -/

def S_OK : Nat := 0
def E_INVALIDARG : Nat := 0x80070057
def E_FAIL : Nat := 0x80004005
/-- HRESULT_FROM_WIN32(ERROR_FILE_NOT_FOUND), the failure produced when a path
    cannot be stat-ed. -/
def HR_FILE_NOT_FOUND : Nat := 0x80070002

/-- SUCCEEDED(hr): the severity bit (bit 31) of the HRESULT is clear. -/
def SUCCEEDED (hr : Nat) : Bool := hr < 0x80000000

def FILE_ATTRIBUTE_READONLY : Nat := 0x1
def FILE_ATTRIBUTE_HIDDEN : Nat := 0x2
def FILE_ATTRIBUTE_SYSTEM : Nat := 0x4
def FILE_ATTRIBUTE_DIRECTORY : Nat := 0x10

def SHCONTF_FOLDERS : Nat := 0x20
def SHCONTF_NONFOLDERS : Nat := 0x40
def SHCONTF_INCLUDEHIDDEN : Nat := 0x80

def SFGAO_CANCOPY : Nat := 0x1
def SFGAO_CANMOVE : Nat := 0x2
def SFGAO_CANLINK : Nat := 0x4
def SFGAO_STORAGE : Nat := 0x8
def SFGAO_CANRENAME : Nat := 0x10
def SFGAO_CANDELETE : Nat := 0x20
def SFGAO_HASPROPSHEET : Nat := 0x40
def SFGAO_DROPTARGET : Nat := 0x100
def SFGAO_LINK : Nat := 0x10000
def SFGAO_READONLY : Nat := 0x40000
def SFGAO_HIDDEN : Nat := 0x80000
def SFGAO_STREAM : Nat := 0x400000
def SFGAO_STORAGEANCESTOR : Nat := 0x800000
def SFGAO_VALIDATE : Nat := 0x1000000
def SFGAO_FILESYSANCESTOR : Nat := 0x10000000
def SFGAO_FOLDER : Nat := 0x20000000
def SFGAO_FILESYSTEM : Nat := 0x40000000
def SFGAO_HASSUBFOLDER : Nat := 0x80000000

/-- The 32-bit value of ~SFGAO_VALIDATE, the mask applied by GetAttributesOf
    before returning. -/
def NOT_SFGAO_VALIDATE : Nat := 0xFEFFFFFF

def SHGDN_NORMAL : Nat := 0
def SHGDN_INFOLDER : Nat := 1
def SHGDN_FORPARSING : Nat := 0x8000

def SHCNE_RENAMEITEM : Nat := 0x1
def SHCNE_RENAMEFOLDER : Nat := 0x20000

/-- Identifier type-tag bytes (abID[0]) for filesystem folders, files and
    drive roots. -/
def PT_DRIVE : Nat := 0x23
def PT_FOLDER : Nat := 0x31
def PT_VALUE : Nat := 0x32

def GENERICSHELLVIEWCOLUMNS : Nat := 6

/-! ## Wide strings -/

/-- A wide (UTF-16) string as its list of code units. -/
abbrev WStr := List Nat

def backslashW : Nat := 92
def dotW : Nat := 46

/-- Modelled from the C runtime: towlower on the ASCII letters (the
    case-insensitive comparisons of the source go through this map). -/
def towlower (c : Nat) : Nat := if 65 ≤ c ∧ c ≤ 90 then c + 32 else c

/-- Modelled from the C runtime: case-insensitive wide-string comparison.
    Returns the difference of the first pair of characters that differ after
    lower-casing (the terminating NUL taking part when one string is a strict
    prefix of the other), 0 when the strings are equal up to case. -/
def wcsicmp : WStr → WStr → Int
  | [], [] => 0
  | [], c :: _ => 0 - (towlower c : Int)
  | c :: _, [] => (towlower c : Int)
  | a :: as, b :: bs =>
    if towlower a = towlower b then wcsicmp as bs
    else (towlower a : Int) - (towlower b : Int)

/-- PathAddBackslashW: append a path separator unless one is already there. -/
def PathAddBackslashW (s : WStr) : WStr :=
  if s.getLast? = some backslashW then s else s ++ [backslashW]

/-- PathCombineW restricted to the uses in the source: join a directory with a
    relative file name. -/
def PathCombineW (dir file : WStr) : WStr :=
  if dir = [] then file else PathAddBackslashW dir ++ file

/-- The final path component: everything after the last separator. -/
def afterLastSep (sep : Nat) : WStr → WStr
  | [] => []
  | c :: rest =>
    if rest.contains sep ∨ c = sep then afterLastSep sep rest else c :: rest

/-- The suffix starting at the last dot of a component ([] when there is no
    dot). -/
def extFrom : WStr → WStr
  | [] => []
  | c :: rest =>
    if c = dotW ∧ ¬ rest.contains dotW then c :: rest else extFrom rest

/-- PathFindExtensionW: the extension of the last path component, including the
    leading dot; [] when the name has no extension. -/
def PathFindExtensionW (s : WStr) : WStr := extFrom (afterLastSep backslashW s)

/-! ## Identifiers (pidls) and directory-scan records -/

/-- The cached file metadata held inside a filesystem identifier (the
    FileStruct part of a pidl): DWORD size, WORD dos date, WORD dos time and the
    WORD of raw attributes. -/
structure FileStruct where
  dwFileSize : Nat
  uFileDate : Nat
  uFileTime : Nat
  uFileAttribs : Nat
deriving DecidableEq

/-- A single shell item identifier: the type-tag byte (abID[0]) plus cached file
    data and, when the identifier carries one, the unicode name record.
    nameW = none models a pidl whose FileStructW is absent
    (_ILGetFileStructW returning NULL). -/
structure Pidl where
  typeTag : Nat
  file : FileStruct
  nameW : Option WStr
deriving DecidableEq

def ILIsFolder (p : Pidl) : Bool := p.typeTag == PT_FOLDER
def ILIsValue (p : Pidl) : Bool := p.typeTag == PT_VALUE
def ILIsDrive (p : Pidl) : Bool := p.typeTag == PT_DRIVE

/-- _ILGetFileAttributes: the raw attribute word cached in the identifier. -/
def ILGetFileAttributes (p : Pidl) : Nat := p.file.uFileAttribs

/-- _ILGetExtension: the stored name's extension without the leading dot,
    [] when there is none (the failure return of the original). -/
def ILGetExtension (p : Pidl) : WStr :=
  match p.nameW with
  | none => []
  | some n =>
    match PathFindExtensionW n with
    | [] => []
    | _ :: t => t

/-- A WIN32_FIND_DATAW as consumed by the source: raw attributes, the last-write
    stamp already split into dos date and time words, the size, and the name. -/
structure FindDataW where
  dwFileAttributes : Nat
  wWriteDate : Nat
  wWriteTime : Nat
  nFileSize : Nat
  cFileName : WStr
deriving DecidableEq

/-- Modelled from the spec: the identifier codec's FromFileEntry operation
    (_ILCreateFromFindDataW, outside the given sources) maps a directory-scan
    record to a Folder or File identifier depending on the directory bit,
    caching name, size, split date/time and the low word of the raw
    attributes. -/
def ILCreateFromFindDataW (fd : FindDataW) : Pidl :=
  { typeTag :=
      if fd.dwFileAttributes &&& FILE_ATTRIBUTE_DIRECTORY ≠ 0 then PT_FOLDER
      else PT_VALUE
    file :=
      { dwFileSize := fd.nFileSize % 2 ^ 32
        uFileDate := fd.wWriteDate % 2 ^ 16
        uFileTime := fd.wWriteTime % 2 ^ 16
        uFileAttribs := fd.dwFileAttributes % 2 ^ 16 }
    nameW := some fd.cFileName }

/-! ## Directory enumerator (CFileSysEnum) -/

/-- The entry-collection loop of CFileSysEnum::Initialize: the body executed for
    each record delivered by FindFirstFileW/FindNextFileW, in scan order. -/
def fsEnumScan (dwFlags : Nat) : List FindDataW → List Pidl
  | [] => []
  | stffile :: rest =>
    if (stffile.dwFileAttributes &&& FILE_ATTRIBUTE_HIDDEN == 0)
        || (dwFlags &&& SHCONTF_INCLUDEHIDDEN != 0) then
      if (stffile.dwFileAttributes &&& FILE_ATTRIBUTE_DIRECTORY != 0)
          && (dwFlags &&& SHCONTF_FOLDERS != 0)
          && (stffile.cFileName != [dotW])
          && (stffile.cFileName != [dotW, dotW]) then
        ILCreateFromFindDataW stffile :: fsEnumScan dwFlags rest
      else if (stffile.dwFileAttributes &&& FILE_ATTRIBUTE_DIRECTORY == 0)
          && (dwFlags &&& SHCONTF_NONFOLDERS != 0) then
        ILCreateFromFindDataW stffile :: fsEnumScan dwFlags rest
      else
        fsEnumScan dwFlags rest
    else
      fsEnumScan dwFlags rest

/-- CFileSysEnum::Initialize.  The OS-level scan is represented by its outcome:
    findFirstOk tells whether FindFirstFileW produced a handle, entries are the
    records it delivered in scan order, and scanErr tells whether the scan ended
    with an error other than ERROR_NO_MORE_FILES.  Returns the collected
    identifier list when the function returns TRUE, none when it returns
    FALSE. -/
def CFileSysEnumInitialize (lpszPath : Option WStr) (dwFlags : Nat)
    (findFirstOk : Bool) (entries : List FindDataW) (scanErr : Bool) :
    Option (List Pidl) :=
  match lpszPath with
  | none => none
  | some p =>
    if p = [] then none
    else if ¬ findFirstOk then some []
    else if scanErr then none
    else some (fsEnumScan dwFlags entries)

/-- The content-mask filter exactly as the claim states it: a hidden entry is
    excluded unless the hidden-inclusion bit is set; a directory entry is
    included only when the mask requests folders and its name is neither "."
    nor ".."; a non-directory entry is included only when the mask requests
    non-folders. -/
def enumIncluded (dwFlags : Nat) (e : FindDataW) : Bool :=
  ((e.dwFileAttributes &&& FILE_ATTRIBUTE_HIDDEN == 0)
      || (dwFlags &&& SHCONTF_INCLUDEHIDDEN != 0))
  && (if e.dwFileAttributes &&& FILE_ATTRIBUTE_DIRECTORY != 0 then
        (dwFlags &&& SHCONTF_FOLDERS != 0)
          && (e.cFileName != [dotW]) && (e.cFileName != [dotW, dotW])
      else
        dwFlags &&& SHCONTF_NONFOLDERS != 0)

theorem fsEnumScan_eq_filter (dwFlags : Nat) (entries : List FindDataW) :
    fsEnumScan dwFlags entries
      = (entries.filter (enumIncluded dwFlags)).map ILCreateFromFindDataW := by
  induction entries with
  | nil => rfl
  | cons e rest ih =>
    by_cases hhid : (e.dwFileAttributes &&& FILE_ATTRIBUTE_HIDDEN == 0)
        || (dwFlags &&& SHCONTF_INCLUDEHIDDEN != 0)
    · by_cases hdir : e.dwFileAttributes &&& FILE_ATTRIBUTE_DIRECTORY != 0
      · by_cases hfold : (dwFlags &&& SHCONTF_FOLDERS != 0)
            && (e.cFileName != [dotW]) && (e.cFileName != [dotW, dotW])
        · simp_all [fsEnumScan, enumIncluded, List.filter_cons]
        · simp_all [fsEnumScan, enumIncluded, List.filter_cons]
      · by_cases hnf : dwFlags &&& SHCONTF_NONFOLDERS != 0
        · simp_all [fsEnumScan, enumIncluded, List.filter_cons]
        · simp_all [fsEnumScan, enumIncluded, List.filter_cons]
    · simp_all [fsEnumScan, enumIncluded, List.filter_cons]

/-- C4: a clean scan yields exactly the entries passing the content-mask filter,
    converted by the identifier codec, in scan order. -/
theorem enum_returns_filtered_scan (lpszPath : WStr) (dwFlags : Nat)
    (entries : List FindDataW) (hp : lpszPath ≠ []) :
    CFileSysEnumInitialize (some lpszPath) dwFlags true entries false
      = some ((entries.filter (enumIncluded dwFlags)).map ILCreateFromFindDataW) := by
  simp [CFileSysEnumInitialize, hp, fsEnumScan_eq_filter]

theorem enum_returns_filtered_scan_witness :
    ([99] : WStr) ≠ []
    ∧ CFileSysEnumInitialize (some [99]) (SHCONTF_FOLDERS ||| SHCONTF_NONFOLDERS)
        true
        [⟨FILE_ATTRIBUTE_DIRECTORY, 0, 0, 0, [83]⟩,
         ⟨0, 0, 0, 10, [68, 46, 116]⟩,
         ⟨FILE_ATTRIBUTE_DIRECTORY, 0, 0, 0, [dotW]⟩,
         ⟨FILE_ATTRIBUTE_HIDDEN, 0, 0, 3, [72]⟩] false
      = some (([⟨FILE_ATTRIBUTE_DIRECTORY, 0, 0, 0, [83]⟩,
          ⟨0, 0, 0, 10, [68, 46, 116]⟩,
          ⟨FILE_ATTRIBUTE_DIRECTORY, 0, 0, 0, [dotW]⟩,
          ⟨FILE_ATTRIBUTE_HIDDEN, 0, 0, 3, [72]⟩].filter
            (enumIncluded (SHCONTF_FOLDERS ||| SHCONTF_NONFOLDERS))).map
          ILCreateFromFindDataW) :=
  ⟨by decide,
   enum_returns_filtered_scan [99] (SHCONTF_FOLDERS ||| SHCONTF_NONFOLDERS)
     [⟨FILE_ATTRIBUTE_DIRECTORY, 0, 0, 0, [83]⟩,
      ⟨0, 0, 0, 10, [68, 46, 116]⟩,
      ⟨FILE_ATTRIBUTE_DIRECTORY, 0, 0, 0, [dotW]⟩,
      ⟨FILE_ATTRIBUTE_HIDDEN, 0, 0, 3, [72]⟩] (by decide)⟩

/-- C9: a scan-level I/O failure other than "no more entries" makes enumerator
    construction fail as a whole; no partial listing is returned. -/
theorem enum_scan_error_discards_partial (lpszPath : WStr) (dwFlags : Nat)
    (entries : List FindDataW) (hp : lpszPath ≠ []) :
    CFileSysEnumInitialize (some lpszPath) dwFlags true entries true = none := by
  simp [CFileSysEnumInitialize, hp]

theorem enum_scan_error_discards_partial_witness :
    ([99] : WStr) ≠ []
    ∧ CFileSysEnumInitialize (some [99]) SHCONTF_FOLDERS true
        [⟨FILE_ATTRIBUTE_DIRECTORY, 0, 0, 0, [83]⟩] true = none :=
  ⟨by decide,
   enum_scan_error_discards_partial [99] SHCONTF_FOLDERS
     [⟨FILE_ATTRIBUTE_DIRECTORY, 0, 0, 0, [83]⟩] (by decide)⟩

/-! ## Attribute classifier (SHELL32_GetFSItemAttributes) -/

/-- SHELL32_GetFSItemAttributes.  The one filesystem probe — BindToObject plus
    EnumObjects(SHCONTF_FOLDERS) plus Skip(1), executed only when the caller
    asked for SFGAO_HASSUBFOLDER — is represented by its outcome
    probeFoundSubfolder: true when the bind and the enumeration succeeded and
    skipping one child folder returned S_OK.  pdwAttributes is the requested
    mask on entry; the result is the value stored back through the pointer
    (the hr of the original is always S_OK). -/
def SHELL32GetFSItemAttributes (probeFoundSubfolder : Bool) (pidl : Pidl)
    (pdwAttributes : Nat) : Nat :=
  if ¬ (ILIsFolder pidl || ILIsValue pidl) then
    pdwAttributes &&& SFGAO_CANLINK
  else
    let dwFileAttributes := ILGetFileAttributes pidl
    let dwShellAttributes := SFGAO_CANCOPY ||| SFGAO_CANMOVE ||| SFGAO_CANLINK |||
      SFGAO_CANRENAME ||| SFGAO_CANDELETE ||| SFGAO_HASPROPSHEET |||
      SFGAO_DROPTARGET ||| SFGAO_FILESYSTEM
    let dwShellAttributes :=
      if dwFileAttributes &&& FILE_ATTRIBUTE_DIRECTORY ≠ 0 then
        dwShellAttributes ||| (SFGAO_FOLDER ||| SFGAO_HASSUBFOLDER |||
          SFGAO_FILESYSANCESTOR ||| SFGAO_STORAGEANCESTOR ||| SFGAO_STORAGE)
      else
        dwShellAttributes ||| SFGAO_STREAM
    let dwShellAttributes :=
      if dwFileAttributes &&& FILE_ATTRIBUTE_HIDDEN ≠ 0 then
        dwShellAttributes ||| SFGAO_HIDDEN
      else dwShellAttributes
    let dwShellAttributes :=
      if dwFileAttributes &&& FILE_ATTRIBUTE_READONLY ≠ 0 then
        dwShellAttributes ||| SFGAO_READONLY
      else dwShellAttributes
    let dwShellAttributes :=
      if SFGAO_LINK &&& pdwAttributes ≠ 0 then
        if ILGetExtension pidl ≠ [] ∧ wcsicmp (ILGetExtension pidl) [108, 110, 107] = 0 then
          dwShellAttributes ||| SFGAO_LINK
        else dwShellAttributes
      else dwShellAttributes
    let dwShellAttributes :=
      if SFGAO_HASSUBFOLDER &&& pdwAttributes ≠ 0 then
        if probeFoundSubfolder then dwShellAttributes ||| SFGAO_HASSUBFOLDER
        else dwShellAttributes
      else dwShellAttributes
    dwShellAttributes

/-! ## CFSFolder::GetAttributesOf -/

/-- The per-identifier loop of CFSFolder::GetAttributesOf
    (while cidl > 0 && *apidl).  probe gives, per identifier, the outcome of
    the has-subfolder filesystem probe; a none element models a NULL entry in
    the apidl array, which stops the loop. -/
def GetAttributesOfLoop (probe : Pidl → Bool) :
    Nat → List (Option Pidl) → Nat → Nat
  | 0, _, rgfInOut => rgfInOut
  | _ + 1, [], rgfInOut => rgfInOut
  | _ + 1, none :: _, rgfInOut => rgfInOut
  | cidl + 1, some p :: rest, rgfInOut =>
    GetAttributesOfLoop probe cidl rest
      (if ILIsFolder p || ILIsValue p then
        SHELL32GetFSItemAttributes (probe p) p rgfInOut
      else rgfInOut)

/-- CFSFolder::GetAttributesOf.  rootLast is ILFindLastID(pidlRoot); parentGAO
    is the delegation used for a drive root (SHBindToParent followed, on
    success, by the parent's GetAttributesOf), returning the hr and the value
    it leaves in *rgfInOut; probe gives the has-subfolder probe outcome per
    identifier.  apidl = none models a NULL array pointer, rgfInOut = none a
    NULL result pointer.  Returns the hr and the final value of *rgfInOut. -/
def GetAttributesOf (probe : Pidl → Bool) (parentGAO : Nat → Nat × Nat)
    (rootLast : Pidl) (cidl : Nat) (apidl : Option (List (Option Pidl)))
    (rgfInOut : Option Nat) : Nat × Option Nat :=
  match rgfInOut with
  | none => (E_INVALIDARG, none)
  | some rgf0 =>
    if cidl ≠ 0 ∧ apidl = none then (E_INVALIDARG, some rgf0)
    else
      let rgf1 := if rgf0 = 0 then 0xFFFFFFFF else rgf0
      let res : Nat × Nat :=
        if cidl = 0 then
          if ILIsFolder rootLast || ILIsValue rootLast then
            (S_OK, SHELL32GetFSItemAttributes (probe rootLast) rootLast rgf1)
          else if ILIsDrive rootLast then
            parentGAO rgf1
          else
            (S_OK, rgf1)
        else
          (S_OK, GetAttributesOfLoop probe cidl (apidl.getD []) rgf1)
      (res.1, some (res.2 &&& NOT_SFGAO_VALIDATE))

theorem land_notValidate_validate (x : Nat) :
    x &&& NOT_SFGAO_VALIDATE &&& SFGAO_VALIDATE = 0 := by
  have h : NOT_SFGAO_VALIDATE &&& SFGAO_VALIDATE = 0 := by decide
  apply Nat.eq_of_testBit_eq
  intro i
  have h2 := congrArg (fun n => n.testBit i) h
  simp only [Nat.testBit_land, Nat.zero_testBit] at h2 ⊢
  rw [Bool.and_assoc, h2, Bool.and_false]

/-- C1: whenever GetAttributesOf returns successfully, the capability bitmask
    it stores has the SFGAO_VALIDATE bit clear, for every identifier array,
    requested mask, and behaviour of the probe and parent delegations. -/
theorem getAttributesOf_clears_validate (probe : Pidl → Bool)
    (parentGAO : Nat → Nat × Nat) (rootLast : Pidl) (cidl : Nat)
    (apidl : Option (List (Option Pidl))) (rgfInOut : Option Nat) (m : Nat)
    (hm : (GetAttributesOf probe parentGAO rootLast cidl apidl rgfInOut).2 = some m)
    (hs : SUCCEEDED (GetAttributesOf probe parentGAO rootLast cidl apidl rgfInOut).1
        = true) :
    m &&& SFGAO_VALIDATE = 0 := by
  match rgfInOut with
  | none => simp [GetAttributesOf] at hm
  | some rgf0 =>
    by_cases hbad : cidl ≠ 0 ∧ apidl = none
    · rw [GetAttributesOf] at hs
      simp only [if_pos hbad] at hs
      exact absurd hs (by decide)
    · rw [GetAttributesOf] at hm
      simp only [if_neg hbad, Option.some.injEq] at hm
      exact hm ▸ land_notValidate_validate _

theorem getAttributesOf_clears_validate_witness :
    (GetAttributesOf (fun _ => false) (fun r => (0, r))
          ⟨PT_FOLDER, ⟨0, 0, 0, 0x10⟩, some [97]⟩ 0 none (some 0xFFFFFFFF)).2
        = some 0xF080017F
    ∧ SUCCEEDED (GetAttributesOf (fun _ => false) (fun r => (0, r))
          ⟨PT_FOLDER, ⟨0, 0, 0, 0x10⟩, some [97]⟩ 0 none (some 0xFFFFFFFF)).1 = true
    ∧ (0xF080017F : Nat) &&& SFGAO_VALIDATE = 0 :=
  ⟨by decide, by decide,
   getAttributesOf_clears_validate (fun _ => false) (fun r => (0, r))
     ⟨PT_FOLDER, ⟨0, 0, 0, 0x10⟩, some [97]⟩ 0 none (some 0xFFFFFFFF) 0xF080017F
     (by decide) (by decide)⟩

/-- C10: a zero requested-capability mask is replaced by the all-bits value
    before anything is computed, so (for any argument combination that passes
    the argument checks) it produces exactly the same outcome as requesting
    every capability. -/
theorem getAttributesOf_zero_mask_is_all (probe : Pidl → Bool)
    (parentGAO : Nat → Nat × Nat) (rootLast : Pidl) (cidl : Nat)
    (apidl : Option (List (Option Pidl)))
    (hargs : ¬ (cidl ≠ 0 ∧ apidl = none)) :
    GetAttributesOf probe parentGAO rootLast cidl apidl (some 0)
      = GetAttributesOf probe parentGAO rootLast cidl apidl (some 0xFFFFFFFF) := by
  rw [GetAttributesOf, GetAttributesOf]
  simp only [if_neg hargs]
  norm_num

theorem getAttributesOf_zero_mask_is_all_witness :
    ¬ ((0 : Nat) ≠ 0 ∧ (none : Option (List (Option Pidl))) = none)
    ∧ GetAttributesOf (fun _ => false) (fun r => (0, r))
        ⟨PT_FOLDER, ⟨0, 0, 0, 0x10⟩, some [97]⟩ 0 none (some 0)
      = GetAttributesOf (fun _ => false) (fun r => (0, r))
        ⟨PT_FOLDER, ⟨0, 0, 0, 0x10⟩, some [97]⟩ 0 none (some 0xFFFFFFFF) :=
  ⟨by simp,
   getAttributesOf_zero_mask_is_all (fun _ => false) (fun r => (0, r))
     ⟨PT_FOLDER, ⟨0, 0, 0, 0x10⟩, some [97]⟩ 0 none (by simp)⟩

/-- C6 counterexample: for a plain directory the returned bitmask carries
    SFGAO_HASSUBFOLDER even though the probe found no folder child (first
    conjunct), and even when the caller did not request that capability at all
    (second conjunct) — the bit is derived from the directory attribute
    alone. -/
theorem hasSubfolder_probe_claim_false :
    SHELL32GetFSItemAttributes false ⟨PT_FOLDER, ⟨0, 0, 0, 0x10⟩, some [97]⟩ 0xFFFFFFFF
        &&& SFGAO_HASSUBFOLDER ≠ 0
    ∧ SHELL32GetFSItemAttributes false ⟨PT_FOLDER, ⟨0, 0, 0, 0x10⟩, some [97]⟩ SFGAO_CANCOPY
        &&& SFGAO_HASSUBFOLDER ≠ 0 := by
  constructor
  · decide
  · decide

theorem testBit_lor_of_left {x : Nat} (y : Nat) (i : Nat) (h : x.testBit i = true) :
    (x ||| y).testBit i = true := by
  simp [Nat.testBit_lor, h]

theorem land_hasSubfolder_of_testBit {x : Nat} (h : x.testBit 31 = true) :
    x &&& SFGAO_HASSUBFOLDER ≠ 0 := by
  have hp : SFGAO_HASSUBFOLDER = 2 ^ 31 := by decide
  rw [hp, Nat.and_two_pow, h]
  decide

/-- C6 amended: for any identifier whose cached attributes carry the directory
    bit, the attribute classifier always asserts SFGAO_HASSUBFOLDER — whatever
    the requested mask and whatever the has-subfolder probe reports; the probe
    can only re-assert the bit, never clear it. -/
theorem hasSubfolder_set_for_directories (probeFoundSubfolder : Bool)
    (pidl : Pidl) (pdwAttributes : Nat) (hf : ILIsFolder pidl = true)
    (hd : ILGetFileAttributes pidl &&& FILE_ATTRIBUTE_DIRECTORY ≠ 0) :
    SHELL32GetFSItemAttributes probeFoundSubfolder pidl pdwAttributes
      &&& SFGAO_HASSUBFOLDER ≠ 0 := by
  apply land_hasSubfolder_of_testBit
  simp only [SHELL32GetFSItemAttributes, hf, Bool.true_or, not_true_eq_false,
    if_false, if_pos hd]
  repeat' split
  all_goals decide

theorem hasSubfolder_set_for_directories_witness :
    ILIsFolder ⟨PT_FOLDER, ⟨0, 0, 0, 0x10⟩, some [97]⟩ = true
    ∧ ILGetFileAttributes ⟨PT_FOLDER, ⟨0, 0, 0, 0x10⟩, some [97]⟩
        &&& FILE_ATTRIBUTE_DIRECTORY ≠ 0
    ∧ SHELL32GetFSItemAttributes false ⟨PT_FOLDER, ⟨0, 0, 0, 0x10⟩, some [97]⟩ 0
        &&& SFGAO_HASSUBFOLDER ≠ 0 :=
  ⟨by decide, by decide,
   hasSubfolder_set_for_directories false ⟨PT_FOLDER, ⟨0, 0, 0, 0x10⟩, some [97]⟩ 0
     (by decide) (by decide)⟩

/-! ## CFSFolder::CompareIDs -/

/-- MAKE_COMPARE_HRESULT: an HRESULT with severity 0 whose code field is the
    comparison outcome truncated to an unsigned short. -/
def MAKE_COMPARE_HRESULT (x : Int) : Nat := (x % 65536).toNat

/-- The signed 16-bit value of an HRESULT's code field: callers of CompareIDs
    read the low word of a successful result as a signed short to obtain the
    ordering. -/
def toSigned16 (n : Nat) : Int :=
  if n % 65536 < 32768 then (n % 65536 : Int) else (n % 65536 : Int) - 65536

/-- The ordering a caller extracts from a CompareIDs result: the sign of the
    signed 16-bit code field. -/
def compareSign (hr : Nat) : Int := Int.sign (toSigned16 hr)

/-- The signed 32-bit value of a machine word. -/
def toSigned32 (n : Nat) : Int :=
  if n % 2 ^ 32 < 2 ^ 31 then (n % 2 ^ 32 : Int) else (n % 2 ^ 32 : Int) - 2 ^ 32

/-- The C expression (int)(a - b) on unsigned 32-bit operands: wrap-around
    subtraction reinterpreted as a signed int. -/
def sub32 (a b : Nat) : Int := toSigned32 (a % 2 ^ 32 + (2 ^ 32 - b % 2 ^ 32))

/-- CFSFolder::CompareIDs.  cmpChildren and cmpDetails are the delegations to
    SHELL32_CompareChildren (tie-break on a zero result) and
    SHELL32_CompareDetails (the attributes column), handed the same arguments
    as the originals and returning the delegated HRESULT. -/
def CompareIDs (cmpChildren cmpDetails : Nat → Pidl → Pidl → Nat)
    (lParam : Nat) (pidl1 pidl2 : Pidl) : Nat :=
  match pidl1.nameW, pidl2.nameW with
  | some wszName1, some wszName2 =>
    if lParam % 65536 ≥ GENERICSHELLVIEWCOLUMNS then E_INVALIDARG
    else if ILIsFolder pidl1 ≠ ILIsFolder pidl2 then
      MAKE_COMPARE_HRESULT (if ILIsFolder pidl1 then -1 else 1)
    else if lParam % 65536 = 5 then
      cmpDetails lParam pidl1 pidl2
    else
      let result : Int :=
        if lParam % 65536 = 0 then
          wcsicmp wszName1 wszName2
        else if lParam % 65536 = 1 then
          0
        else if lParam % 65536 = 2 then
          wcsicmp (PathFindExtensionW wszName1) (PathFindExtensionW wszName2)
        else if lParam % 65536 = 3 then
          sub32 pidl1.file.dwFileSize pidl2.file.dwFileSize
        else
          if (pidl1.file.uFileDate : Int) - pidl2.file.uFileDate ≠ 0 then
            (pidl1.file.uFileDate : Int) - pidl2.file.uFileDate
          else
            (pidl1.file.uFileTime : Int) - pidl2.file.uFileTime
      if result = 0 then cmpChildren lParam pidl1 pidl2
      else MAKE_COMPARE_HRESULT result
  | _, _ => E_INVALIDARG

/-- C2 counterexample: under the size sort key, a file of size 0 and a file of
    size 32768 each compare strictly below the other (the 32768-byte wrap-around
    of the unsigned subtraction lands on the sign bit of the 16-bit code field),
    so the sign of compare(a,b) is not the negation of the sign of
    compare(b,a). -/
theorem compareIDs_not_antisymmetric :
    compareSign (CompareIDs (fun _ _ _ => 0) (fun _ _ _ => 0) 3
        ⟨PT_VALUE, ⟨0, 0, 0, 0x20⟩, some [97]⟩
        ⟨PT_VALUE, ⟨32768, 0, 0, 0x20⟩, some [98]⟩) = -1
    ∧ compareSign (CompareIDs (fun _ _ _ => 0) (fun _ _ _ => 0) 3
        ⟨PT_VALUE, ⟨32768, 0, 0, 0x20⟩, some [98]⟩
        ⟨PT_VALUE, ⟨0, 0, 0, 0x20⟩, some [97]⟩) = -1 := by
  constructor
  · decide
  · decide

/-- C2 amended: the folder-first rule does hold and is antisymmetric — for any
    valid sort key and identifiers with valid file data, when exactly one of
    the two is a folder, the comparison puts the folder strictly first in both
    directions. -/
theorem compareIDs_folder_first (cmpChildren cmpDetails : Nat → Pidl → Pidl → Nat)
    (lParam : Nat) (pidl1 pidl2 : Pidl) (n1 n2 : WStr)
    (h1 : pidl1.nameW = some n1) (h2 : pidl2.nameW = some n2)
    (hcol : lParam % 65536 < GENERICSHELLVIEWCOLUMNS)
    (hf1 : ILIsFolder pidl1 = true) (hf2 : ILIsFolder pidl2 = false) :
    compareSign (CompareIDs cmpChildren cmpDetails lParam pidl1 pidl2) = -1
    ∧ compareSign (CompareIDs cmpChildren cmpDetails lParam pidl2 pidl1) = 1 := by
  have hcol2 := Nat.not_le.mpr hcol
  constructor
  · simp [CompareIDs, h1, h2, hf1, hf2, hcol2]
    decide
  · simp [CompareIDs, h1, h2, hf1, hf2, hcol2]
    decide

theorem compareIDs_folder_first_witness :
    (⟨PT_FOLDER, ⟨0, 0, 0, 0x10⟩, some [97]⟩ : Pidl).nameW = some [97]
    ∧ (⟨PT_VALUE, ⟨9, 0, 0, 0x20⟩, some [98]⟩ : Pidl).nameW = some [98]
    ∧ (0 : Nat) % 65536 < GENERICSHELLVIEWCOLUMNS
    ∧ compareSign (CompareIDs (fun _ _ _ => 0) (fun _ _ _ => 0) 0
        ⟨PT_FOLDER, ⟨0, 0, 0, 0x10⟩, some [97]⟩
        ⟨PT_VALUE, ⟨9, 0, 0, 0x20⟩, some [98]⟩) = -1
    ∧ compareSign (CompareIDs (fun _ _ _ => 0) (fun _ _ _ => 0) 0
        ⟨PT_VALUE, ⟨9, 0, 0, 0x20⟩, some [98]⟩
        ⟨PT_FOLDER, ⟨0, 0, 0, 0x10⟩, some [97]⟩) = 1 :=
  ⟨rfl, rfl, by decide,
   (compareIDs_folder_first (fun _ _ _ => 0) (fun _ _ _ => 0) 0
     ⟨PT_FOLDER, ⟨0, 0, 0, 0x10⟩, some [97]⟩ ⟨PT_VALUE, ⟨9, 0, 0, 0x20⟩, some [98]⟩
     [97] [98] rfl rfl (by decide) (by decide) (by decide)).1,
   (compareIDs_folder_first (fun _ _ _ => 0) (fun _ _ _ => 0) 0
     ⟨PT_FOLDER, ⟨0, 0, 0, 0x10⟩, some [97]⟩ ⟨PT_VALUE, ⟨9, 0, 0, 0x20⟩, some [98]⟩
     [97] [98] rfl rfl (by decide) (by decide) (by decide)).2⟩

/-! ## CFSFolder::ParseDisplayName -/

/-- Modelled from the spec: GetNextElementW (outside the given sources) splits
    the text at the first path separator, yielding the leading segment and,
    when a separator was present, the remainder after it (none when the text
    holds no separator). -/
def GetNextElementW : WStr → WStr × Option WStr
  | [] => ([], none)
  | c :: rest =>
    if c = backslashW then ([], some rest)
    else
      let (e, r) := GetNextElementW rest
      (c :: e, r)

/-- SHELL32_CreatePidlFromBindCtx.  The bind context is represented by the find
    data it supplies, if any: none covers a null bind context, a missing
    FileSystemBindData parameter, a failing QueryInterface and a failing
    GetFindData alike.  The given path overwrites the find data's file name
    before the identifier is created. -/
def SHELL32CreatePidlFromBindCtx (pbc : Option FindDataW) (path : WStr) :
    Option Pidl :=
  match pbc with
  | none => none
  | some wfd => some (ILCreateFromFindDataW { wfd with cFileName := path })

/-- The outputs of ParseDisplayName: the hr, the identifier stored through
    ppidl (none = NULL), the value stored through pchEaten (none when nothing
    was stored), and the value left in *pdwAttributes. -/
structure ParseResult where
  hr : Nat
  ppidl : Option Pidl
  pchEaten : Option Nat
  attrs : Option Nat
deriving DecidableEq

/-- CFSFolder::ParseDisplayName.  fsStat is _ILCreateFromPathW on the combined
    path (none = the path cannot be resolved); parseNext is the delegation
    SHELL32_ParseNextElement on the remaining text, returning the hr and the
    identifier list it leaves in pidlTemp; probe feeds the attribute
    computation of the last segment.  wantEaten / wantPpidl tell whether the
    pchEaten / ppidl output pointers were supplied; pdwAttributes holds
    *pdwAttributes when that pointer was supplied. -/
def ParseDisplayName (fsStat : WStr → Option Pidl)
    (parseNext : Pidl → WStr → Nat × Option Pidl) (probe : Pidl → Bool)
    (sPathTarget : WStr) (pbc : Option FindDataW)
    (lpszDisplayName : Option WStr) (wantEaten : Bool) (wantPpidl : Bool)
    (pdwAttributes : Option Nat) : ParseResult :=
  if ¬ wantPpidl then ⟨E_INVALIDARG, none, none, pdwAttributes⟩
  else
    match lpszDisplayName with
    | none => ⟨E_INVALIDARG, none, none, pdwAttributes⟩
    | some text =>
      let eaten : Option Nat := if wantEaten then some 0 else none
      if text = [] then ⟨E_INVALIDARG, none, eaten, pdwAttributes⟩
      else
        let (szElement, szNext) := GetNextElementW text
        let step : Nat × Option Pidl :=
          match SHELL32CreatePidlFromBindCtx pbc szElement with
          | some pidlTemp =>
            (S_OK,
             some (if szNext ≠ none then { pidlTemp with typeTag := PT_FOLDER }
                   else pidlTemp))
          | none =>
            let szPath := PathAddBackslashW sPathTarget ++ szElement
            match fsStat szPath with
            | some p => (S_OK, some p)
            | none => (HR_FILE_NOT_FOUND, none)
        match step with
        | (hr1, some pidlTemp) =>
          (match szNext with
           | some rest =>
             if rest ≠ [] then
               let next := parseNext pidlTemp rest
               ⟨next.1, if SUCCEEDED next.1 = true then next.2 else none, eaten,
                 pdwAttributes⟩
             else
               ⟨hr1, some pidlTemp, eaten,
                 match pdwAttributes with
                 | some a =>
                   if a ≠ 0 then
                     some (SHELL32GetFSItemAttributes (probe pidlTemp) pidlTemp a)
                   else some a
                 | none => none⟩
           | none =>
             ⟨hr1, some pidlTemp, eaten,
               match pdwAttributes with
               | some a =>
                 if a ≠ 0 then
                   some (SHELL32GetFSItemAttributes (probe pidlTemp) pidlTemp a)
                 else some a
               | none => none⟩)
        | (hr1, none) => ⟨hr1, none, eaten, pdwAttributes⟩

/-- C3: when the bind context supplies find data for the first segment and more
    text follows the separator, the identifier handed to the next-element
    delegation is synthesized from that find data (its name replaced by the
    segment) with its kind forced to PT_FOLDER, whatever kind the metadata
    describes — and the filesystem oracle is never consulted (the outcome does
    not mention it). -/
theorem parse_bindctx_forces_folder (fsStat : WStr → Option Pidl)
    (parseNext : Pidl → WStr → Nat × Option Pidl) (probe : Pidl → Bool)
    (sPathTarget : WStr) (wfd : FindDataW) (text szElement rest : WStr)
    (wantEaten : Bool) (pdwAttributes : Option Nat)
    (hsplit : GetNextElementW text = (szElement, some rest))
    (htext : text ≠ []) (hrest : rest ≠ []) :
    ParseDisplayName fsStat parseNext probe sPathTarget (some wfd) (some text)
        wantEaten true pdwAttributes
      = (let forced : Pidl :=
           { ILCreateFromFindDataW { wfd with cFileName := szElement } with
             typeTag := PT_FOLDER }
         let next := parseNext forced rest
         ⟨next.1, if SUCCEEDED next.1 = true then next.2 else none,
           if wantEaten then some 0 else none, pdwAttributes⟩) := by
  rw [ParseDisplayName]
  simp only [not_true_eq_false, if_false, hsplit, if_neg (by simp : ¬ True = False)]
  rw [if_neg (by simp [htext])]
  simp [SHELL32CreatePidlFromBindCtx, hrest]

theorem parse_bindctx_forces_folder_witness :
    GetNextElementW [66, 92, 67] = ([66], some [67])
    ∧ ([66, 92, 67] : WStr) ≠ []
    ∧ ([67] : WStr) ≠ []
    ∧ ParseDisplayName (fun _ => none) (fun p _ => (S_OK, some p)) (fun _ => false)
        [99] (some ⟨0, 0, 0, 5, [120]⟩) (some [66, 92, 67]) true true none
      = (let forced : Pidl :=
           { ILCreateFromFindDataW { (⟨0, 0, 0, 5, [120]⟩ : FindDataW) with
               cFileName := [66] } with typeTag := PT_FOLDER }
         let next := (fun (p : Pidl) (_ : WStr) => (S_OK, some p)) forced [67]
         ⟨next.1, if SUCCEEDED next.1 = true then next.2 else none, some 0, none⟩) :=
  ⟨by decide, by decide, by decide,
   parse_bindctx_forces_folder (fun _ => none) (fun p _ => (S_OK, some p))
     (fun _ => false) [99] ⟨0, 0, 0, 5, [120]⟩ [66, 92, 67] [66] [67] true none
     (by decide) (by decide) (by decide)⟩

/-- C5: parsing a null text returns E_INVALIDARG, and parsing the empty string
    returns E_INVALIDARG while still storing 0 through pchEaten when that
    output was requested. -/
theorem parse_null_and_empty_invalid (fsStat : WStr → Option Pidl)
    (parseNext : Pidl → WStr → Nat × Option Pidl) (probe : Pidl → Bool)
    (sPathTarget : WStr) (pbc : Option FindDataW) (wantEaten : Bool)
    (pdwAttributes : Option Nat) :
    (ParseDisplayName fsStat parseNext probe sPathTarget pbc none wantEaten true
        pdwAttributes).hr = E_INVALIDARG
    ∧ (ParseDisplayName fsStat parseNext probe sPathTarget pbc (some []) wantEaten
        true pdwAttributes).hr = E_INVALIDARG
    ∧ (ParseDisplayName fsStat parseNext probe sPathTarget pbc (some []) true
        true pdwAttributes).pchEaten = some 0 := by
  refine ⟨rfl, ?_, ?_⟩ <;> simp [ParseDisplayName]

/-! ## CFSFolder::SetNameOf -/

/-- The source path SetNameOf builds: the folder's target path combined with
    the name stored in the identifier. -/
def snSrcPath (sPathTarget srcName : WStr) : WStr :=
  PathCombineW sPathTarget srcName

/-- The destination path before any extension handling: combined with the
    folder's target path for SHGDN_NORMAL or in-folder names, taken verbatim
    otherwise. -/
def snDestBase (sPathTarget lpName : WStr) (dwFlags : Nat) : WStr :=
  if dwFlags = SHGDN_NORMAL ∨ dwFlags &&& SHGDN_INFOLDER ≠ 0 then
    PathCombineW sPathTarget lpName
  else lpName

/-- The final destination path: the source's extension is appended when the
    parsing flag is absent, extension hiding applies to the source path, and
    the source carries an extension.  hideExt is the outcome of the
    registry-driven SHELL_FS_HideExtension. -/
def snDestPath (hideExt : WStr → Bool) (sPathTarget srcName lpName : WStr)
    (dwFlags : Nat) : WStr :=
  let szSrc := snSrcPath sPathTarget srcName
  let szDest := snDestBase sPathTarget lpName dwFlags
  if dwFlags &&& SHGDN_FORPARSING = 0 ∧ hideExt szSrc = true then
    let ext := PathFindExtensionW szSrc
    if ext ≠ [] then szDest ++ ext else szDest
  else szDest

/-- The outputs of SetNameOf: hr, whether MoveFileW was invoked, the rename
    notification sent (event, old path, new path), and the identifier stored
    through pPidlOut. -/
structure SetNameOfResult where
  hr : Nat
  movedFile : Bool
  notify : Option (Nat × WStr × WStr)
  pidlOut : Option Pidl
deriving DecidableEq

/-- CFSFolder::SetNameOf.  hideExt is SHELL_FS_HideExtension; createFromPath is
    _ILCreateFromPathW (none = failure); moveFileOk the outcome of MoveFileW;
    wantPidlOut tells whether the pPidlOut output pointer was supplied. -/
def SetNameOf (hideExt : WStr → Bool) (createFromPath : WStr → Option Pidl)
    (moveFileOk : WStr → WStr → Bool) (sPathTarget : WStr) (pidl : Pidl)
    (lpName : WStr) (dwFlags : Nat) (wantPidlOut : Bool) : SetNameOfResult :=
  let bIsFolder := ILIsFolder pidl
  match pidl.nameW with
  | none => ⟨E_INVALIDARG, false, none, none⟩
  | some srcName =>
    let szSrc := snSrcPath sPathTarget srcName
    let szDest := snDestPath hideExt sPathTarget srcName lpName dwFlags
    if szSrc = szDest then
      if wantPidlOut then
        match createFromPath szDest with
        | some p => ⟨S_OK, false, none, some p⟩
        | none => ⟨HR_FILE_NOT_FOUND, false, none, none⟩
      else ⟨S_OK, false, none, none⟩
    else if moveFileOk szSrc szDest then
      let notif := some
        ((if bIsFolder then SHCNE_RENAMEFOLDER else SHCNE_RENAMEITEM), szSrc, szDest)
      if wantPidlOut then
        match createFromPath szDest with
        | some p => ⟨S_OK, true, notif, some p⟩
        | none => ⟨HR_FILE_NOT_FOUND, true, notif, none⟩
      else ⟨S_OK, true, notif, none⟩
    else ⟨E_FAIL, false, none, none⟩

/-- C7: when the computed source and destination paths coincide, no rename is
    performed and no notification is sent; the call succeeds, and when an
    output identifier was requested it is the one created from the unchanged
    destination path. -/
theorem setNameOf_same_path_idempotent (hideExt : WStr → Bool)
    (createFromPath : WStr → Option Pidl) (moveFileOk : WStr → WStr → Bool)
    (sPathTarget : WStr) (pidl : Pidl) (lpName : WStr) (dwFlags : Nat)
    (srcName : WStr) (p : Pidl) (hn : pidl.nameW = some srcName)
    (heq : snSrcPath sPathTarget srcName
        = snDestPath hideExt sPathTarget srcName lpName dwFlags)
    (hcp : createFromPath (snDestPath hideExt sPathTarget srcName lpName dwFlags)
        = some p) :
    SetNameOf hideExt createFromPath moveFileOk sPathTarget pidl lpName dwFlags true
        = ⟨S_OK, false, none, some p⟩
    ∧ SetNameOf hideExt createFromPath moveFileOk sPathTarget pidl lpName dwFlags false
        = ⟨S_OK, false, none, none⟩ := by
  rw [SetNameOf, SetNameOf, hn]
  simp [heq, hcp]

theorem setNameOf_same_path_idempotent_witness :
    (⟨PT_VALUE, ⟨4, 0, 0, 0x20⟩, some [97]⟩ : Pidl).nameW = some [97]
    ∧ snSrcPath [99] [97] = snDestPath (fun _ => false) [99] [97] [97] 0
    ∧ (fun (_ : WStr) => some (⟨PT_VALUE, ⟨4, 0, 0, 0x20⟩, some [97]⟩ : Pidl))
        (snDestPath (fun _ => false) [99] [97] [97] 0)
        = some ⟨PT_VALUE, ⟨4, 0, 0, 0x20⟩, some [97]⟩
    ∧ SetNameOf (fun _ => false)
        (fun _ => some ⟨PT_VALUE, ⟨4, 0, 0, 0x20⟩, some [97]⟩)
        (fun _ _ => true) [99] ⟨PT_VALUE, ⟨4, 0, 0, 0x20⟩, some [97]⟩ [97] 0 true
        = ⟨S_OK, false, none, some ⟨PT_VALUE, ⟨4, 0, 0, 0x20⟩, some [97]⟩⟩ :=
  ⟨rfl, by decide, rfl,
   (setNameOf_same_path_idempotent (fun _ => false)
     (fun _ => some ⟨PT_VALUE, ⟨4, 0, 0, 0x20⟩, some [97]⟩) (fun _ _ => true)
     [99] ⟨PT_VALUE, ⟨4, 0, 0, 0x20⟩, some [97]⟩ [97] 0 [97]
     ⟨PT_VALUE, ⟨4, 0, 0, 0x20⟩, some [97]⟩ rfl (by decide) rfl).1⟩

/-- C8 counterexample: renaming "a.txt" (whose extension is being hidden) to
    "b.pdf" under folder path "c" yields destination "c\b.pdf.txt" — the source
    extension is appended even though the destination "c\b.pdf" already
    carries the extension ".pdf", contradicting the claimed only-if
    condition. -/
theorem setNameOf_ext_appended_despite_dest_ext :
    PathFindExtensionW [99, 92, 98, 46, 112, 100, 102] ≠ []
    ∧ snDestBase [99] [98, 46, 112, 100, 102] 0 = [99, 92, 98, 46, 112, 100, 102]
    ∧ snDestPath (fun _ => true) [99] [97, 46, 116, 120, 116]
        [98, 46, 112, 100, 102] 0
      = [99, 92, 98, 46, 112, 100, 102, 46, 116, 120, 116]
    ∧ snDestPath (fun _ => true) [99] [97, 46, 116, 120, 116]
        [98, 46, 112, 100, 102] 0
      ≠ snDestBase [99] [98, 46, 112, 100, 102] 0 := by
  refine ⟨by decide, by decide, by decide, by decide⟩

/-- C8 amended: whenever the parsing flag is absent and extension hiding
    applies to the source, the source's extension is appended to the
    destination path unconditionally — whether or not the destination already
    carries an extension (when the source has no extension the append is
    empty). -/
theorem setNameOf_ext_always_appended (hideExt : WStr → Bool)
    (sPathTarget srcName lpName : WStr) (dwFlags : Nat)
    (hflag : dwFlags &&& SHGDN_FORPARSING = 0)
    (hhide : hideExt (snSrcPath sPathTarget srcName) = true) :
    snDestPath hideExt sPathTarget srcName lpName dwFlags
      = snDestBase sPathTarget lpName dwFlags
        ++ PathFindExtensionW (snSrcPath sPathTarget srcName) := by
  rw [snDestPath]
  simp only [hflag, hhide, and_self, if_pos]
  split
  · rfl
  · next h =>
    simp only [ne_eq, not_not] at h
    rw [h, List.append_nil]

theorem setNameOf_ext_always_appended_witness :
    (0 : Nat) &&& SHGDN_FORPARSING = 0
    ∧ (fun (_ : WStr) => true) (snSrcPath [99] [97, 46, 116, 120, 116]) = true
    ∧ snDestPath (fun _ => true) [99] [97, 46, 116, 120, 116] [98] 0
      = snDestBase [99] [98] 0
        ++ PathFindExtensionW (snSrcPath [99] [97, 46, 116, 120, 116]) :=
  ⟨by decide, rfl,
   setNameOf_ext_always_appended (fun _ => true) [99] [97, 46, 116, 120, 116]
     [98] 0 (by decide) rfl⟩

end Shell
